import Mathlib

/-!
Verification development for the booking worker (Cloudflare Worker that
receives a webhook, resolves a Pacific-zone wall-clock time to a UTC
instant, requests an ICS invite, sends a confirmation email and posts
Slack notifications).

The definitions below are a shallow embedding of the source:
`src/index.ts` (handler `handleBookEmail`), `src/utils/apyhub.ts`
(`generateICS`), `src/utils/slack.ts` (`sendSlackMessage`), and of the
parts of the `date-fns-tz` library the handler relies on
(`zonedTimeToUtc` via `toDate` with a time-zone option, and
`formatInTimeZone`).  Instants are epoch milliseconds as `Int`
(JavaScript `Date.getTime()`); the worker runtime operates with a UTC
system zone, so `toUtcDate` in the library is the identity and is not
modelled separately.
-/

/-! ## Calendar arithmetic (proleptic Gregorian, as used by JS `Date.UTC`) -/

/-- Gregorian leap-year test (`isLeapYearIndex` in date-fns-tz `toDate`). -/
def isLeapYear (y : Nat) : Bool :=
  (y % 4 == 0 && y % 100 != 0) || y % 400 == 0

/-- Number of days in a Gregorian year. -/
def daysInYear (y : Nat) : Nat :=
  if isLeapYear y then 366 else 365

/-- Days in month `m` (1..12) of year `y`; 0 for out-of-range months.
Mirrors the `DAYS_IN_MONTH` / `DAYS_IN_MONTH_LEAP_YEAR` tables of
date-fns-tz `toDate`. -/
def daysInMonth (y m : Nat) : Nat :=
  match m with
  | 1 => 31
  | 2 => if isLeapYear y then 29 else 28
  | 3 => 31
  | 4 => 30
  | 5 => 31
  | 6 => 30
  | 7 => 31
  | 8 => 31
  | 9 => 30
  | 10 => 31
  | 11 => 30
  | 12 => 31
  | _ => 0

/-- `validateDate` of date-fns-tz `toDate`: the month must exist and the
day must fit in that month of that year. -/
def validateDate (y m d : Nat) : Bool :=
  1 ≤ m && m ≤ 12 && 1 ≤ d && d ≤ daysInMonth y m

/-- `validateTime` of date-fns-tz `toDate`, specialised to seconds = 0
(the handler always appends ":00"): hour 24 is allowed only with
minute 0 (and denotes midnight of the next day); otherwise the hour must
be below 24 and the minute below 60. -/
def validateTime (hh mm : Nat) : Bool :=
  if hh == 24 then mm == 0 else hh < 25 && mm < 60

/-- Sum of the lengths of `k` consecutive years starting at year `y`. -/
def daysFromK : Nat → Nat → Nat
  | _, 0 => 0
  | y, k + 1 => daysInYear y + daysFromK (y + 1) k

/-- Sum of the lengths of `k` consecutive months starting at month `m`
of year `y`. -/
def monthsFromK : Nat → Nat → Nat → Nat
  | _, _, 0 => 0
  | y, m, k + 1 => daysInMonth y m + monthsFromK y (m + 1) k

/-- Zero-based day of the year of the civil date `y-m-d`. -/
def dayOfYear (y m d : Nat) : Nat :=
  monthsFromK y 1 (m - 1) + (d - 1)

/-- Days from 1970-01-01 to `y-m-d` for `y ≥ 1970` (nonnegative). -/
def daysSinceEpochNat (y m d : Nat) : Nat :=
  daysFromK 1970 (y - 1970) + dayOfYear y m d

/-- Signed days from 1970-01-01 to `y-m-d` (JS `Date.UTC` day count). -/
def daysSinceEpoch (y m d : Nat) : Int :=
  if 1970 ≤ y then (daysSinceEpochNat y m d : Int)
  else (dayOfYear y m d : Int) - (daysFromK y (1970 - y) : Int)

/-- The naive wall-clock `y-m-d hh:mm` read as if it were UTC, in epoch
milliseconds — the `timestamp + time` value of date-fns-tz `toDate`
before the zone offset is applied (`Date.UTC` rolls hour 24 over into
the next day, which this addition reproduces). -/
def encodeLocal (y m d hh mm : Nat) : Int :=
  daysSinceEpoch y m d * 86400000 + ((hh * 3600000 + mm * 60000 : Nat) : Int)

/-- Find the year containing day `n` (counted from year `y` upward),
returning the year and the remaining day-of-year.  The fuel is an upper
bound on the number of year steps; callers pass `n + 1`, which always
suffices since every year has at least 365 days. -/
def yearSearchUp : Nat → Nat → Nat → Nat × Nat
  | 0, y, n => (y, n)
  | f + 1, y, n =>
      if n < daysInYear y then (y, n) else yearSearchUp f (y + 1) (n - daysInYear y)

/-- Find the year containing the day `m` days before Jan 1 of year `y`
(for instants before the epoch), returning year and day-of-year. -/
def yearSearchDown : Nat → Nat → Nat → Nat × Nat
  | 0, y, _ => (y, 0)
  | f + 1, y, m =>
      if m ≤ daysInYear (y - 1) then (y - 1, daysInYear (y - 1) - m)
      else yearSearchDown f (y - 1) (m - daysInYear (y - 1))

/-- Find the month containing zero-based day-of-year `n`, scanning from
month `m` of year `y`; returns the month and one-based day. -/
def monthSearch : Nat → Nat → Nat → Nat → Nat × Nat
  | 0, _, m, n => (m, n + 1)
  | f + 1, y, m, n =>
      if n < daysInMonth y m then (m, n + 1)
      else monthSearch f y (m + 1) (n - daysInMonth y m)

/-- Civil date of a nonnegative epoch day count. -/
def civilFromDaysNat (n : Nat) : Nat × Nat × Nat :=
  let yr := yearSearchUp (n + 1) 1970 n
  let md := monthSearch 12 yr.1 1 yr.2
  (yr.1, md.1, md.2)

/-- Civil date of a negative epoch day count (`m > 0` days before the
epoch). -/
def civilFromDaysNeg (m : Nat) : Nat × Nat × Nat :=
  let yr := yearSearchDown m 1970 m
  let md := monthSearch 12 yr.1 1 yr.2
  (yr.1, md.1, md.2)

/-- Decompose an epoch-millisecond value into the civil components
`(year, month, day, hour, minute)` it denotes when read as UTC — the JS
`getUTCFullYear`/`getUTCMonth`/... family used by date-fns formatting. -/
def decomposeLocal (l : Int) : Nat × Nat × Nat × Nat × Nat :=
  if 0 ≤ l then
    let n := l.toNat
    let tod := n % 86400000
    let ymd := civilFromDaysNat (n / 86400000)
    (ymd.1, ymd.2.1, ymd.2.2, tod / 3600000, tod % 3600000 / 60000)
  else
    let q := (-l).toNat
    let days := (q + 86399999) / 86400000
    let tod := (days * 86400000 - q) % 86400000
    let ymd := civilFromDaysNeg days
    (ymd.1, ymd.2.1, ymd.2.2, tod / 3600000, tod % 3600000 / 60000)

/-! ## America/Los_Angeles zone data

Real zone-transition data for the display zone, as surfaced to the code
through `Intl`-backed `tzTokenizeDate`: since 2007 the US DST rule is
"second Sunday in March 02:00 local (10:00 UTC) to first Sunday in
November 02:00 local (09:00 UTC)", with offsets UTC-8 (standard) and
UTC-7 (daylight).  The model applies this rule to every year of the
epoch era; all theorems about specific years stay within 2007+ where it
coincides with the IANA data. -/

/-- Day (1-based) of the second Sunday of March of year `y`.
1970-01-01 was a Thursday, so `(days + 4) % 7` is the weekday with
0 = Sunday. -/
def marchSecondSunday (y : Nat) : Nat :=
  let w := (daysSinceEpochNat y 3 1 + 4) % 7
  8 + (7 - w) % 7

/-- Day (1-based) of the first Sunday of November of year `y`. -/
def novFirstSunday (y : Nat) : Nat :=
  let w := (daysSinceEpochNat y 11 1 + 4) % 7
  1 + (7 - w) % 7

/-- Instant (epoch ms) at which daylight saving begins in year `y`:
second Sunday of March, 10:00 UTC (02:00 PST). -/
def springMs (y : Nat) : Int :=
  (daysSinceEpochNat y 3 (marchSecondSunday y) * 86400000 + 36000000 : Nat)

/-- Instant (epoch ms) at which daylight saving ends in year `y`:
first Sunday of November, 09:00 UTC (02:00 PDT). -/
def fallMs (y : Nat) : Int :=
  (daysSinceEpochNat y 11 (novFirstSunday y) * 86400000 + 32400000 : Nat)

/-- Whether daylight saving is in effect in America/Los_Angeles at the
(nonnegative) instant `t`. -/
def inDst (t : Int) : Bool :=
  let days := t.toNat / 86400000
  let y := (yearSearchUp (days + 1) 1970 days).1
  if springMs y ≤ t ∧ t < fallMs y then true else false

/-- Zone offset of America/Los_Angeles at instant `t`, in milliseconds,
with the sign convention of date-fns-tz `calcOffset`
(`local wall-clock as-if-UTC` minus `instant`): -25200000 (UTC-7)
during daylight saving, -28800000 (UTC-8) otherwise. -/
def laOffset (t : Int) : Int :=
  if t < 0 then -28800000
  else if inDst t then -25200000 else -28800000

/-- `calcOffset` of date-fns-tz `tzParseTimezone`, specialised to the
display zone with a UTC system zone. -/
def calcOffset (t : Int) : Int := laOffset t

/-- `fixOffset` of date-fns-tz `tzParseTimezone`: correct an offset
guess near a DST transition.  `l` is the naive local time as-if-UTC;
the result is the offset actually used for the conversion. -/
def fixOffset (l : Int) (offset : Int) : Int :=
  let utcGuess := l - offset
  let o2 := calcOffset utcGuess
  if offset = o2 then offset
  else
    let utcGuess2 := utcGuess - (o2 - offset)
    let o3 := calcOffset utcGuess2
    if o2 = o3 then o2 else max o2 o3

/-- `zonedTimeToUtc` of date-fns-tz on a pattern-valid naive string for
the display zone (the `toDate` branch taking the time zone from the
options): subtract the fixed-up zone offset from the naive
as-if-UTC value. -/
def zonedTimeToUtc (l : Int) : Int :=
  l - fixOffset l (calcOffset l)

/-- The full library parse of the handler: date-fns-tz `toDate` returns
an invalid date (`NaN`) when `validateDate`/`validateTime` reject the
components, else the zone-converted instant.  `none` models `NaN`. -/
def toDateInZone (y m d hh mm : Nat) : Option Int :=
  if validateDate y m d && validateTime hh mm then
    some (zonedTimeToUtc (encodeLocal y m d hh mm))
  else none

/-! ## Formatting (`formatInTimeZone` for the patterns the repo uses) -/

/-- Two-digit zero-padded decimal rendering. -/
def pad2 (n : Nat) : String :=
  if n < 10 then "0" ++ toString n else toString n

/-- Four-digit zero-padded decimal rendering. -/
def pad4 (n : Nat) : String :=
  if n < 10 then "000" ++ toString n
  else if n < 100 then "00" ++ toString n
  else if n < 1000 then "0" ++ toString n
  else toString n

/-- `formatInTimeZone(instant, pacificTimeZone, pattern)` for the three
patterns occurring in the repository: render the instant shifted by the
zone offset at that instant.  Patterns outside the repository are not
modelled and yield the empty string. -/
def formatInTimeZone (t : Int) (pattern : String) : String :=
  let l := t + laOffset t
  let c := decomposeLocal l
  if pattern == "dd-MM-yyyy" then
    pad2 c.2.2.1 ++ "-" ++ pad2 c.2.1 ++ "-" ++ pad4 c.1
  else if pattern == "HH:mm" then
    pad2 c.2.2.2.1 ++ ":" ++ pad2 c.2.2.2.2
  else if pattern == "MM/dd/yyyy, hh:mm:ss a zzz" then
    let hh := c.2.2.2.1
    let h12 := if hh % 12 == 0 then 12 else hh % 12
    let ss := (if 0 ≤ l then l.toNat % 60000 / 1000 else 0)
    pad2 c.2.1 ++ "/" ++ pad2 c.2.2.1 ++ "/" ++ pad4 c.1 ++ ", " ++
      pad2 h12 ++ ":" ++ pad2 c.2.2.2.2 ++ ":" ++ pad2 ss ++ " " ++
      (if hh < 12 then "AM" else "PM") ++ " " ++
      (if laOffset t == -25200000 then "PDT" else "PST")
  else ""

/-- A naive local value exists in the display zone when some instant
renders to it — equivalently, one of the two possible offsets is
consistent.  Spring-forward gap times (e.g. 02:30 on a
second-Sunday-of-March) satisfy neither. -/
def existsLocalTime (l : Int) : Prop :=
  ∃ o : Int, (o = -28800000 ∨ o = -25200000) ∧ laOffset (l - o) = o

/-! ## Slack transport (`src/utils/slack.ts`, `sendSlackMessage`) -/

/-- Payload for a Slack webhook message; the Block Kit blocks are
modelled by their rendered `mrkdwn` texts. -/
structure SlackMessagePayload where
  blocks : List String
deriving DecidableEq, Repr

/-- Outcome of the single outbound `fetch` to the Slack webhook:
either an HTTP response (any status, with body text) or a transport
exception. -/
inductive SlackTransport where
  | resp (status : Nat) (body : String)
  | exn (msg : String)
deriving DecidableEq, Repr

/-- What `sendSlackMessage` did: whether the POST was performed and the
boolean it returned. -/
structure SlackSendResult where
  posted : Bool
  delivered : Bool
deriving DecidableEq, Repr

/-- `Response.ok` of the fetch API: status in the range 200-299. -/
def responseOk (status : Nat) : Bool :=
  200 ≤ status && status ≤ 299

/-- Whitespace as recognised by JavaScript `String.prototype.trim` (the
characters relevant to webhook bodies). -/
def jsWhitespace (c : Char) : Bool :=
  c == ' ' || c == '\t' || c == '\n' || c == '\r' || c == '\x0b' ||
    c == '\x0c' || c == ' '

/-- JavaScript `trim`: strip leading and trailing whitespace. -/
def jsTrim (s : String) : String :=
  String.mk (((s.toList.dropWhile jsWhitespace).reverse.dropWhile jsWhitespace).reverse)

/-- JavaScript `toLowerCase` on the ASCII range (webhook bodies are
ASCII). -/
def jsToLower (s : String) : String :=
  String.mk (s.toList.map Char.toLower)

/-- `sendSlackMessage(webhookUrl, payload)`: no URL (absent is modelled
as the empty string, which is equally falsy in the source) means no POST
and `false`; otherwise one POST whose outcome is `t`.  A non-ok status
or an exception yields `false`; an ok status yields the comparison
`responseText.trim().toLowerCase() === "ok"`.  Errors are caught inside
the function and never re-thrown, which the total return type records. -/
def sendSlackMessage (webhookUrl : String) (payload : SlackMessagePayload)
    (t : SlackTransport) : SlackSendResult :=
  if webhookUrl == "" then { posted := false, delivered := false }
  else
    match t with
    | .exn _ => { posted := true, delivered := false }
    | .resp status body =>
        if !responseOk status then { posted := true, delivered := false }
        else { posted := true, delivered := jsToLower (jsTrim body) == "ok" }

/-! ## Invite generation (`src/utils/apyhub.ts`, `generateICS`) -/

/-- `BookingDetails` of `src/utils/apyhub.ts`.  The `startTimeISO`
field (an ISO-8601 UTC string in the source, immediately re-parsed with
`new Date`) is carried as the instant it denotes, in epoch ms. -/
structure BookingDetails where
  name : String
  email : String
  startMs : Int
deriving DecidableEq, Repr

/-- JSON values occurring in the ApyHub request body. -/
inductive JVal where
  | s (v : String)
  | arr (v : List String)
deriving DecidableEq, Repr

/-- The display zone used throughout the worker. -/
def pacificTimeZone : String := "America/Los_Angeles"

/-- The request body `generateICS` submits to ApyHub, as the ordered
key-value list of the object literal in the source.  The end instant is
the start instant plus 30 minutes in absolute time
(`utcStartDate.getTime() + 30 * 60 * 1000`); both endpoints are
projected to Pacific local components with `formatInTimeZone`.  The
source deliberately omits `start_date_time` and `end_date_time`
(they appear only commented out). -/
def apyRequestBody (details : BookingDetails) : List (String × JVal) :=
  [("summary", .s ("Interview: " ++ details.name)),
   ("description", .s ("Bland AI Support Engineer Interview Slot for " ++
      details.name ++ ". Please be ready!")),
   ("organizer_email", .s "hello@debtcat.com"),
   ("attendees_emails", .arr [details.email]),
   ("time_zone", .s pacificTimeZone),
   ("meeting_date", .s (formatInTimeZone details.startMs "dd-MM-yyyy")),
   ("start_time", .s (formatInTimeZone details.startMs "HH:mm")),
   ("end_time", .s (formatInTimeZone (details.startMs + 30 * 60 * 1000) "HH:mm")),
   ("organizer_name", .s "Bland AI Recruiting")]

/-- Outcome of the single outbound `fetch` to ApyHub. -/
inductive ApyOutcome where
  | ok (ics : String)
  | httpError (status : Nat) (body : String)
  | netError (msg : String)
deriving DecidableEq, Repr

/-- The value/exception behaviour of `generateICS` given the fetch
outcome: a non-ok response throws
`Failed to generate ICS: ApyHub returned status {status} - {body}`
(string built as in the source); a transport error is logged and
re-thrown unchanged; otherwise the response text is returned. -/
def generateICSResult : ApyOutcome → Except String String
  | .ok ics => .ok ics
  | .httpError status body =>
      .error ("Failed to generate ICS: ApyHub returned status " ++
        toString status ++ " - " ++ body)
  | .netError msg => .error msg

/-- The value/exception behaviour of `sendEmailWithICS`
(`src/utils/sendgrid.ts`): any SendGrid failure is caught and re-thrown
as the fixed message. -/
def sendEmailResult : Bool → Except String Unit
  | true => .ok ()
  | false => .error "Failed to send confirmation email via SendGrid."

/-! ## The `/book-email` handler (`src/index.ts`, `handleBookEmail`) -/

/-- The fields of the Bland webhook body the handler reads.  A missing
field is `none`; `none` at the top level models a body that is not a
JSON object (parse failure or `null`). -/
structure BlandWebhookInput where
  email : Option String
  interview_date : Option String
  interview_time : Option String
deriving DecidableEq, Repr

/-- The environment bindings the handler consults. -/
structure Env where
  apyToken : String
  sendgridKey : String
  slackBookingsUrl : Option String
  slackErrorsUrl : Option String
deriving DecidableEq, Repr

/-- JavaScript truthiness of an optional string: absent and the empty
string are both falsy. -/
def present : Option String → Bool
  | none => false
  | some s => s != ""

/-- Field lookup used by the missing-field filter. -/
def fieldOf (i : BlandWebhookInput) : String → Option String
  | "email" => i.email
  | "interview_date" => i.interview_date
  | "interview_time" => i.interview_time
  | _ => none

/-- The `missingFields` computation of the handler: the required field
names whose values are falsy, in declaration order. -/
def missingFields (i : BlandWebhookInput) : List String :=
  ["email", "interview_date", "interview_time"].filter fun f => !present (fieldOf i f)

/-- JavaScript `email.split("@")[0]`: the part before the first `@`
(the whole string when there is no `@`). -/
def jsSplitHead (s : String) : String :=
  String.mk (s.toList.takeWhile fun c => c != '@')

/-- The applicant name derived for `BookingDetails`:
`email.split("@")[0] || "Valued Candidate"`. -/
def derivedName (email : String) : String :=
  let p := jsSplitHead email
  if p == "" then "Valued Candidate" else p

/-- The early `bookingDataForSlack` record (kept for the failure path):
with a truthy email, `{name: email.split("@")[0] || "Candidate",
email}`; with a parsed object but falsy email,
`{name: "Candidate (No Email)"}`; otherwise empty. -/
structure SlackBookingData where
  name : Option String
  email : Option String
deriving DecidableEq, Repr

/-- Builds `bookingDataForSlack` from the parsed input. -/
def bookingDataForSlack (json : Option BlandWebhookInput) : SlackBookingData :=
  match json with
  | none => { name := none, email := none }
  | some i =>
      if present i.email then
        { name := some (let p := jsSplitHead (i.email.getD "")
            if p == "" then "Candidate" else p),
          email := i.email }
      else { name := some "Candidate (No Email)", email := none }

/-- Decimal digit value of a digit character. -/
def digitVal (c : Char) : Nat := c.toNat - 48

/-- The date regex of the handler,
`^(\d{2})-(\d{2})-(\d{4})$`, returning `(day, month, year)`. -/
def matchDate (s : String) : Option (Nat × Nat × Nat) :=
  match s.toList with
  | [d1, d2, s1, m1, m2, s2, y1, y2, y3, y4] =>
      if d1.isDigit && d2.isDigit && s1 == '-' && m1.isDigit && m2.isDigit &&
          s2 == '-' && y1.isDigit && y2.isDigit && y3.isDigit && y4.isDigit then
        some (digitVal d1 * 10 + digitVal d2, digitVal m1 * 10 + digitVal m2,
          ((digitVal y1 * 10 + digitVal y2) * 10 + digitVal y3) * 10 + digitVal y4)
      else none
  | _ => none

/-- The time regex of the handler, `^(\d{2}):(\d{2})$`, returning
`(hour, minute)`. -/
def matchTime (s : String) : Option (Nat × Nat) :=
  match s.toList with
  | [h1, h2, c1, m1, m2] =>
      if h1.isDigit && h2.isDigit && c1 == ':' && m1.isDigit && m2.isDigit then
        some (digitVal h1 * 10 + digitVal h2, digitVal m1 * 10 + digitVal m2)
      else none
  | _ => none

/-- The fallback branch of the `Applicant Email` interpolation. -/
def failureEmailFallback : Option BlandWebhookInput → String
  | none => "N/A"
  | some i =>
      match i.email with
      | none => "undefined"
      | some s => s

/-- The `Applicant Email` text of the failure notification:
`bookingDataForSlack.email || (inputData ? inputData.email : "N/A")`,
where interpolating a JS `undefined` email renders as `undefined`. -/
def failureEmailText (sd : SlackBookingData) (json : Option BlandWebhookInput) : String :=
  match sd.email with
  | some e => if e != "" then e else failureEmailFallback json
  | none => failureEmailFallback json

/-- The failure Block Kit message of the handler's catch block. -/
def failurePayload (sd : SlackBookingData) (json : Option BlandWebhookInput)
    (errMsg : String) : SlackMessagePayload :=
  { blocks :=
      ["❌ *Interview Booking Failed!*",
       "*Applicant Email:* " ++ failureEmailText sd json,
       "*Error Details:* " ++ (if errMsg == "" then "Unknown internal error" else errMsg)] }

/-- The success Block Kit message of the handler. -/
def successPayload (bd : BookingDetails) : SlackMessagePayload :=
  { blocks :=
      ["✅ *New Interview Booked!*",
       "*Applicant:* " ++ (if bd.name == "" then "N/A" else bd.name),
       "*Email:* " ++ (if bd.email == "" then "N/A" else bd.email),
       "*Time (PT):* " ++ formatInTimeZone bd.startMs "MM/dd/yyyy, hh:mm:ss a zzz",
       "*Calendar Invite:* Sent Successfully!"] }

/-- Observable outcome of one `handleBookEmail` invocation: the HTTP
response (status plus the `success` flag and `message`/`error` string of
the JSON body), which outbound stages ran, how many notification POSTs
were attempted on each webhook, the boolean the detached notification
reported (consumed only by logging), and the derived data. -/
structure HandlerResult where
  status : Nat
  success : Bool
  body : String
  icsCalled : Bool
  emailCalled : Bool
  successNotifyAttempts : Nat
  failureNotifyAttempts : Nat
  notifyDelivered : Option Bool
  bookingDetails : Option BookingDetails
  slackData : SlackBookingData
deriving DecidableEq, Repr

/-- The catch block of the handler: build the failure notification when
`SLACK_ERRORS_URL` is configured (one `sendSlackMessage` attempt,
detached via `ctx.waitUntil`), and answer
`500 {success: false, error: message}`. -/
def mkFailureResult (json : Option BlandWebhookInput) (env : Env)
    (tr : SlackTransport) (msg : String) (ics emailC : Bool)
    (bd : Option BookingDetails) : HandlerResult :=
  let sd := bookingDataForSlack json
  let respBody := if msg == "" then "Failed to process booking due to an internal error." else msg
  if present env.slackErrorsUrl then
    { status := 500, success := false, body := respBody,
      icsCalled := ics, emailCalled := emailC,
      successNotifyAttempts := 0, failureNotifyAttempts := 1,
      notifyDelivered := some (sendSlackMessage (env.slackErrorsUrl.getD "")
        (failurePayload sd json msg) tr).delivered,
      bookingDetails := bd, slackData := sd }
  else
    { status := 500, success := false, body := respBody,
      icsCalled := ics, emailCalled := emailC,
      successNotifyAttempts := 0, failureNotifyAttempts := 0,
      notifyDelivered := none,
      bookingDetails := bd, slackData := sd }

/-- The success tail of the handler: notify the bookings webhook when
configured (detached via `ctx.waitUntil`) and answer
`200 {success: true, message: "Booking confirmed and email sent."}`. -/
def mkSuccessResult (json : Option BlandWebhookInput) (env : Env)
    (tr : SlackTransport) (bd : BookingDetails) : HandlerResult :=
  if present env.slackBookingsUrl then
    { status := 200, success := true, body := "Booking confirmed and email sent.",
      icsCalled := true, emailCalled := true,
      successNotifyAttempts := 1, failureNotifyAttempts := 0,
      notifyDelivered := some (sendSlackMessage (env.slackBookingsUrl.getD "")
        (successPayload bd) tr).delivered,
      bookingDetails := some bd, slackData := bookingDataForSlack json }
  else
    { status := 200, success := true, body := "Booking confirmed and email sent.",
      icsCalled := true, emailCalled := true,
      successNotifyAttempts := 0, failureNotifyAttempts := 0,
      notifyDelivered := none,
      bookingDetails := some bd, slackData := bookingDataForSlack json }

/-- `handleBookEmail` of `src/index.ts`, as a function of the parsed
request body and the outcomes of the outbound calls (ApyHub fetch,
SendGrid send, Slack webhook POST).  Follows the source control flow:
JSON validity, required-field check, the two regexes, the
`zonedTimeToUtc` / `isNaN` guard, invite generation, email dispatch,
then the success response; every thrown error lands in the catch block
(`mkFailureResult`). -/
def handleBookEmail (json : Option BlandWebhookInput) (env : Env)
    (apy : ApyOutcome) (emailOk : Bool) (tr : SlackTransport) : HandlerResult :=
  match json with
  | none => mkFailureResult none env tr "Invalid JSON payload" false false none
  | some i =>
      if present i.email && present i.interview_date && present i.interview_time then
        match matchDate (i.interview_date.getD ""), matchTime (i.interview_time.getD "") with
        | some (dd, mo, yr), some (hh, mi) =>
            match toDateInZone yr mo dd hh mi with
            | some utc =>
                let bd : BookingDetails :=
                  { name := derivedName (i.email.getD ""),
                    email := i.email.getD "", startMs := utc }
                match generateICSResult apy with
                | .ok _ =>
                    match sendEmailResult emailOk with
                    | .ok _ => mkSuccessResult (some i) env tr bd
                    | .error e => mkFailureResult (some i) env tr e true true (some bd)
                | .error e => mkFailureResult (some i) env tr e true false (some bd)
            | none =>
                mkFailureResult (some i) env tr "Could not parse Pacific date." false false none
        | _, _ =>
            mkFailureResult (some i) env tr "Invalid date or time format." false false none
      else
        mkFailureResult (some i) env tr
          ("Missing required fields: " ++ String.intercalate ", " (missingFields i))
          false false none

/-- Whether every stage of the pipeline completes for the given input
and outbound outcomes (the condition under which the source reaches its
`200` return). -/
def stagesComplete (json : Option BlandWebhookInput) (apy : ApyOutcome)
    (emailOk : Bool) : Bool :=
  match json with
  | none => false
  | some i =>
      if present i.email && present i.interview_date && present i.interview_time then
        match matchDate (i.interview_date.getD ""), matchTime (i.interview_time.getD "") with
        | some (dd, mo, yr), some (hh, mi) =>
            match toDateInZone yr mo dd hh mi with
            | some _ =>
                (match apy with
                 | .ok _ => emailOk
                 | _ => false)
            | none => false
        | _, _ => false
      else false

/-! ## Concrete fixtures used by closed theorems -/

/-- A webhook body with the email field absent. -/
def inputMissingEmail : BlandWebhookInput :=
  { email := none, interview_date := some "21-05-2025", interview_time := some "14:30" }

/-- The success-path example body of the specification. -/
def inputGood : BlandWebhookInput :=
  { email := some "a.b@x.com", interview_date := some "21-05-2025",
    interview_time := some "14:30" }

/-- An environment with only the errors webhook configured. -/
def envErrorsOnly : Env :=
  { apyToken := "t", sendgridKey := "k", slackBookingsUrl := none,
    slackErrorsUrl := some "https://hooks.example/e" }

/-- An environment with no webhook configured. -/
def envNone : Env :=
  { apyToken := "t", sendgridKey := "k", slackBookingsUrl := none, slackErrorsUrl := none }

/-- A pattern-valid time that is not a real wall-clock time. -/
def inputBadTime : BlandWebhookInput :=
  { email := some "a.b@x.com", interview_date := some "01-01-2025",
    interview_time := some "25:00" }

/-- A pattern-valid date that is not a real calendar date. -/
def inputBadDate : BlandWebhookInput :=
  { email := some "a.b@x.com", interview_date := some "32-01-2025",
    interview_time := some "10:00" }

/-- The one rolled-over time the library accepts: hour 24, minute 0. -/
def inputRollover : BlandWebhookInput :=
  { email := some "a.b@x.com", interview_date := some "31-12-2024",
    interview_time := some "24:00" }

/-- An email whose local part is empty. -/
def inputAtEmail : BlandWebhookInput :=
  { email := some "@x.com", interview_date := some "15-07-2025",
    interview_time := some "12:00" }

/-! ## Helper lemmas: the decomposition inverts the encoding -/

theorem daysInYear_pos (y : Nat) : 0 < daysInYear y := by
  unfold daysInYear; split <;> omega

theorem daysFromK_ge (y k : Nat) : k ≤ daysFromK y k := by
  induction k generalizing y with
  | zero => simp [daysFromK]
  | succ k ih =>
    have h1 := daysInYear_pos y
    have h2 := ih (y + 1)
    simp only [daysFromK]
    omega

theorem yearSearchUp_spec (k : Nat) :
    ∀ f y n, k < f → n < daysInYear (y + k) →
      yearSearchUp f y (daysFromK y k + n) = (y + k, n) := by
  induction k with
  | zero =>
    intro f y n hf hn
    match f, hf with
    | f + 1, _ =>
      simp only [daysFromK, Nat.zero_add, yearSearchUp, Nat.add_zero] at *
      rw [if_pos hn]
  | succ k ih =>
    intro f y n hf hn
    match f, hf with
    | f + 1, _ =>
      have hpos := daysInYear_pos y
      simp only [daysFromK, yearSearchUp]
      rw [if_neg (by omega)]
      have harg : daysInYear y + daysFromK (y + 1) k + n - daysInYear y
          = daysFromK (y + 1) k + n := by omega
      rw [harg]
      have hy : y + 1 + k = y + (k + 1) := by omega
      have := ih f (y + 1) n (by omega) (by rw [hy]; exact hn)
      rw [this, hy]

theorem monthSearch_spec (k : Nat) :
    ∀ f y m n, k < f → n < daysInMonth y (m + k) →
      monthSearch f y m (monthsFromK y m k + n) = (m + k, n + 1) := by
  induction k with
  | zero =>
    intro f y m n hf hn
    match f, hf with
    | f + 1, _ =>
      simp only [monthsFromK, Nat.zero_add, Nat.add_zero] at *
      simp only [monthSearch]
      rw [if_pos hn]
  | succ k ih =>
    intro f y m n hf hn
    match f, hf with
    | f + 1, _ =>
      simp only [monthsFromK, monthSearch]
      rw [if_neg (by omega)]
      have harg : daysInMonth y m + monthsFromK y (m + 1) k + n - daysInMonth y m
          = monthsFromK y (m + 1) k + n := by omega
      rw [harg]
      have hm : m + 1 + k = m + (k + 1) := by omega
      have := ih f y (m + 1) n (by omega) (by rw [hm]; exact hn)
      rw [this, hm]

theorem monthsFromK_year (y : Nat) : monthsFromK y 1 12 = daysInYear y := by
  show daysInMonth y 1 + _ = _
  simp only [monthsFromK, daysInMonth, daysInYear]
  by_cases h : isLeapYear y = true <;> simp [h]

theorem monthsFromK_split (y a b c : Nat) :
    monthsFromK y a (b + c) = monthsFromK y a b + monthsFromK y (a + b) c := by
  induction b generalizing a with
  | zero => simp [monthsFromK]
  | succ b ih =>
    have : a + (b + 1) = (a + 1) + b := by omega
    simp only [Nat.succ_add, monthsFromK, ih (a + 1), this]
    omega

theorem dayOfYear_lt (y m d : Nat) (h : validateDate y m d = true) :
    dayOfYear y m d < daysInYear y := by
  unfold validateDate at h
  simp only [Bool.and_eq_true, decide_eq_true_eq] at h
  obtain ⟨⟨⟨hm1, hm12⟩, hd1⟩, hd⟩ := h
  have hsplit : monthsFromK y 1 12
      = monthsFromK y 1 (m - 1) + monthsFromK y m (13 - m) := by
    have h1 : (m - 1) + (13 - m) = 12 := by omega
    have h2 : 1 + (m - 1) = m := by omega
    rw [← h1, monthsFromK_split, h2]
  have hrest : daysInMonth y m ≤ monthsFromK y m (13 - m) := by
    have h3 : 13 - m = (13 - m - 1) + 1 := by omega
    rw [h3]
    simp only [monthsFromK]
    omega
  have := monthsFromK_year y
  unfold dayOfYear
  omega

theorem civilFromDaysNat_spec (y m d : Nat) (hy : 1970 ≤ y)
    (h : validateDate y m d = true) :
    civilFromDaysNat (daysSinceEpochNat y m d) = (y, m, d) := by
  have hval := h
  unfold validateDate at hval
  simp only [Bool.and_eq_true, decide_eq_true_eq] at hval
  obtain ⟨⟨⟨hm1, hm12⟩, hd1⟩, hd⟩ := hval
  unfold civilFromDaysNat daysSinceEpochNat
  have hdoy := dayOfYear_lt y m d h
  have hyear : yearSearchUp (daysFromK 1970 (y - 1970) + dayOfYear y m d + 1) 1970
      (daysFromK 1970 (y - 1970) + dayOfYear y m d) = (y, dayOfYear y m d) := by
    have hk := daysFromK_ge 1970 (y - 1970)
    have h1970 : 1970 + (y - 1970) = y := by omega
    have := yearSearchUp_spec (y - 1970)
      (daysFromK 1970 (y - 1970) + dayOfYear y m d + 1) 1970 (dayOfYear y m d)
      (by omega) (by rw [h1970]; exact hdoy)
    rw [h1970] at this
    exact this
  rw [hyear]
  have hmonth : monthSearch 12 y 1 (dayOfYear y m d) = (m, d) := by
    unfold dayOfYear
    have h1m : 1 + (m - 1) = m := by omega
    have := monthSearch_spec (m - 1) 12 y 1 (d - 1) (by omega)
      (by rw [h1m]; omega)
    rw [h1m] at this
    have hd1eq : d - 1 + 1 = d := by omega
    rw [hd1eq] at this
    exact this
  simp [hmonth]

theorem decomposeLocal_encodeLocal (y m d hh mm : Nat) (hy : 1970 ≤ y)
    (h : validateDate y m d = true) (hhh : hh < 24) (hmm : mm < 60) :
    decomposeLocal (encodeLocal y m d hh mm) = (y, m, d, hh, mm) := by
  have henc : encodeLocal y m d hh mm
      = ((daysSinceEpochNat y m d * 86400000 + (hh * 3600000 + mm * 60000) : Nat) : Int) := by
    unfold encodeLocal daysSinceEpoch
    rw [if_pos hy]
    push_cast
    ring
  rw [henc]
  unfold decomposeLocal
  rw [if_pos (by positivity)]
  simp only [Int.toNat_natCast]
  have htod : (daysSinceEpochNat y m d * 86400000 + (hh * 3600000 + mm * 60000)) % 86400000
      = hh * 3600000 + mm * 60000 := by omega
  have hday : (daysSinceEpochNat y m d * 86400000 + (hh * 3600000 + mm * 60000)) / 86400000
      = daysSinceEpochNat y m d := by omega
  rw [htod, hday, civilFromDaysNat_spec y m d hy h]
  have hh1 : (hh * 3600000 + mm * 60000) / 3600000 = hh := by omega
  have hm1 : (hh * 3600000 + mm * 60000) % 3600000 / 60000 = mm := by omega
  rw [hh1, hm1]

/-! ## Helper lemmas: the conversion picks a consistent offset -/

theorem laOffset_values (t : Int) :
    laOffset t = -28800000 ∨ laOffset t = -25200000 := by
  unfold laOffset
  split
  · left; rfl
  · split
    · right; rfl
    · left; rfl

theorem fixOffset_cases (l o : Int) :
    fixOffset l o =
      if o = calcOffset (l - o) then o
      else if calcOffset (l - o) = calcOffset (l - calcOffset (l - o)) then
        calcOffset (l - o)
      else max (calcOffset (l - o)) (calcOffset (l - calcOffset (l - o))) := by
  have h : l - o - (calcOffset (l - o) - o) = l - calcOffset (l - o) := by ring
  simp only [fixOffset]
  rw [h]

theorem ztu_localizes (l : Int) (h : existsLocalTime l) :
    zonedTimeToUtc l + laOffset (zonedTimeToUtc l) = l := by
  obtain ⟨o, ho, hfix⟩ := h
  unfold zonedTimeToUtc
  rw [fixOffset_cases]
  unfold calcOffset
  by_cases h1 : laOffset l = laOffset (l - laOffset l)
  · rw [if_pos h1]
    omega
  · rw [if_neg h1]
    by_cases h2 : laOffset (l - laOffset l) = laOffset (l - laOffset (l - laOffset l))
    · rw [if_pos h2]
      omega
    · exfalso
      have v1 := laOffset_values l
      have v2 := laOffset_values (l - laOffset l)
      rcases ho with rfl | rfl <;> rcases v1 with v1 | v1
      · rw [v1] at h1
        exact h1 hfix.symm
      · rw [v1] at h1 h2 v2
        rcases v2 with v2 | v2
        · rw [v2] at h2
          exact h2 hfix.symm
        · exact h1 v2.symm
      · rw [v1] at h1 h2 v2
        rcases v2 with v2 | v2
        · exact h1 v2.symm
        · rw [v2] at h2
          exact h2 hfix.symm
      · rw [v1] at h1
        exact h1 hfix.symm

theorem formatInTimeZone_ddMMyyyy (t : Int) :
    formatInTimeZone t "dd-MM-yyyy" =
      pad2 (decomposeLocal (t + laOffset t)).2.2.1 ++ "-" ++
      pad2 (decomposeLocal (t + laOffset t)).2.1 ++ "-" ++
      pad4 (decomposeLocal (t + laOffset t)).1 := rfl

theorem formatInTimeZone_HHmm (t : Int) :
    formatInTimeZone t "HH:mm" =
      pad2 (decomposeLocal (t + laOffset t)).2.2.2.1 ++ ":" ++
      pad2 (decomposeLocal (t + laOffset t)).2.2.2.2 := rfl

/-- C1: for every wall-clock date and time that is valid in the display
zone (a real calendar date, an hour below 24, and a local time that
actually exists in America/Los_Angeles, i.e. not inside the
spring-forward gap), converting it to an absolute instant with
`zonedTimeToUtc` and formatting that instant back in the same zone with
the patterns matching the input format (`dd-MM-yyyy` and `HH:mm`)
returns the original local values — both inside and outside daylight
saving.  Moreover the effective offset applied by the conversion, and
the offset consulted when formatting, differ between a July date and a
January date, so neither direction uses a constant UTC offset. -/
theorem c1_display_zone_roundtrip :
    (∀ y m d hh mm : Nat, 2007 ≤ y → validateDate y m d = true → hh < 24 → mm < 60 →
      existsLocalTime (encodeLocal y m d hh mm) →
        formatInTimeZone (zonedTimeToUtc (encodeLocal y m d hh mm)) "dd-MM-yyyy"
            = pad2 d ++ "-" ++ pad2 m ++ "-" ++ pad4 y ∧
        formatInTimeZone (zonedTimeToUtc (encodeLocal y m d hh mm)) "HH:mm"
            = pad2 hh ++ ":" ++ pad2 mm) ∧
    zonedTimeToUtc (encodeLocal 2025 7 15 12 0) - encodeLocal 2025 7 15 12 0 ≠
      zonedTimeToUtc (encodeLocal 2025 1 15 12 0) - encodeLocal 2025 1 15 12 0 ∧
    laOffset (zonedTimeToUtc (encodeLocal 2025 7 15 12 0)) ≠
      laOffset (zonedTimeToUtc (encodeLocal 2025 1 15 12 0)) := by
  refine ⟨?_, by decide, by decide⟩
  intro y m d hh mm hy hval hhh hmm hex
  have hloc := ztu_localizes _ hex
  have hdec := decomposeLocal_encodeLocal y m d hh mm (by omega) hval hhh hmm
  rw [formatInTimeZone_ddMMyyyy, formatInTimeZone_HHmm, hloc, hdec]
  exact ⟨rfl, rfl⟩

theorem c1_display_zone_roundtrip_witness :
    ((2007 : Nat) ≤ 2025 ∧ validateDate 2025 7 15 = true ∧
      existsLocalTime (encodeLocal 2025 7 15 14 30) ∧
      existsLocalTime (encodeLocal 2025 1 15 9 0)) ∧
    formatInTimeZone (zonedTimeToUtc (encodeLocal 2025 7 15 14 30)) "dd-MM-yyyy"
        = pad2 15 ++ "-" ++ pad2 7 ++ "-" ++ pad4 2025 ∧
    formatInTimeZone (zonedTimeToUtc (encodeLocal 2025 7 15 14 30)) "HH:mm"
        = pad2 14 ++ ":" ++ pad2 30 ∧
    formatInTimeZone (zonedTimeToUtc (encodeLocal 2025 1 15 9 0)) "dd-MM-yyyy"
        = pad2 15 ++ "-" ++ pad2 1 ++ "-" ++ pad4 2025 ∧
    formatInTimeZone (zonedTimeToUtc (encodeLocal 2025 1 15 9 0)) "HH:mm"
        = pad2 9 ++ ":" ++ pad2 0 :=
  ⟨⟨by decide, by decide, ⟨-25200000, Or.inr rfl, by decide⟩,
      ⟨-28800000, Or.inl rfl, by decide⟩⟩,
    (c1_display_zone_roundtrip.1 2025 7 15 14 30 (by decide) (by decide)
      (by decide) (by decide) ⟨-25200000, Or.inr rfl, by decide⟩).1,
    (c1_display_zone_roundtrip.1 2025 7 15 14 30 (by decide) (by decide)
      (by decide) (by decide) ⟨-25200000, Or.inr rfl, by decide⟩).2,
    (c1_display_zone_roundtrip.1 2025 1 15 9 0 (by decide) (by decide)
      (by decide) (by decide) ⟨-28800000, Or.inl rfl, by decide⟩).1,
    (c1_display_zone_roundtrip.1 2025 1 15 9 0 (by decide) (by decide)
      (by decide) (by decide) ⟨-28800000, Or.inl rfl, by decide⟩).2⟩

/-! ## Helper lemmas about the handler constructors -/

theorem mkFailureResult_status (j : Option BlandWebhookInput) (e : Env)
    (t : SlackTransport) (m : String) (ic em : Bool) (bd : Option BookingDetails) :
    (mkFailureResult j e t m ic em bd).status = 500 := by
  unfold mkFailureResult
  by_cases h : present e.slackErrorsUrl = true <;> simp [h]

theorem mkFailureResult_success (j : Option BlandWebhookInput) (e : Env)
    (t : SlackTransport) (m : String) (ic em : Bool) (bd : Option BookingDetails) :
    (mkFailureResult j e t m ic em bd).success = false := by
  unfold mkFailureResult
  by_cases h : present e.slackErrorsUrl = true <;> simp [h]

theorem mkFailureResult_body (j : Option BlandWebhookInput) (e : Env)
    (t : SlackTransport) (m : String) (ic em : Bool) (bd : Option BookingDetails) :
    (mkFailureResult j e t m ic em bd).body =
      if m == "" then "Failed to process booking due to an internal error." else m := by
  unfold mkFailureResult
  by_cases h : present e.slackErrorsUrl = true <;> simp [h]

theorem mkFailureResult_icsCalled (j : Option BlandWebhookInput) (e : Env)
    (t : SlackTransport) (m : String) (ic em : Bool) (bd : Option BookingDetails) :
    (mkFailureResult j e t m ic em bd).icsCalled = ic := by
  unfold mkFailureResult
  by_cases h : present e.slackErrorsUrl = true <;> simp [h]

theorem mkFailureResult_emailCalled (j : Option BlandWebhookInput) (e : Env)
    (t : SlackTransport) (m : String) (ic em : Bool) (bd : Option BookingDetails) :
    (mkFailureResult j e t m ic em bd).emailCalled = em := by
  unfold mkFailureResult
  by_cases h : present e.slackErrorsUrl = true <;> simp [h]

theorem mkFailureResult_successNotifyAttempts (j : Option BlandWebhookInput) (e : Env)
    (t : SlackTransport) (m : String) (ic em : Bool) (bd : Option BookingDetails) :
    (mkFailureResult j e t m ic em bd).successNotifyAttempts = 0 := by
  unfold mkFailureResult
  by_cases h : present e.slackErrorsUrl = true <;> simp [h]

theorem mkFailureResult_failureNotifyAttempts (j : Option BlandWebhookInput) (e : Env)
    (t : SlackTransport) (m : String) (ic em : Bool) (bd : Option BookingDetails) :
    (mkFailureResult j e t m ic em bd).failureNotifyAttempts =
      if present e.slackErrorsUrl then 1 else 0 := by
  unfold mkFailureResult
  by_cases h : present e.slackErrorsUrl = true <;> simp [h]

theorem mkFailureResult_bookingDetails (j : Option BlandWebhookInput) (e : Env)
    (t : SlackTransport) (m : String) (ic em : Bool) (bd : Option BookingDetails) :
    (mkFailureResult j e t m ic em bd).bookingDetails = bd := by
  unfold mkFailureResult
  by_cases h : present e.slackErrorsUrl = true <;> simp [h]

theorem mkFailureResult_slackData (j : Option BlandWebhookInput) (e : Env)
    (t : SlackTransport) (m : String) (ic em : Bool) (bd : Option BookingDetails) :
    (mkFailureResult j e t m ic em bd).slackData = bookingDataForSlack j := by
  unfold mkFailureResult
  by_cases h : present e.slackErrorsUrl = true <;> simp [h]

theorem mkSuccessResult_status (j : Option BlandWebhookInput) (e : Env)
    (t : SlackTransport) (bd : BookingDetails) :
    (mkSuccessResult j e t bd).status = 200 := by
  unfold mkSuccessResult
  by_cases h : present e.slackBookingsUrl = true <;> simp [h]

theorem mkSuccessResult_success (j : Option BlandWebhookInput) (e : Env)
    (t : SlackTransport) (bd : BookingDetails) :
    (mkSuccessResult j e t bd).success = true := by
  unfold mkSuccessResult
  by_cases h : present e.slackBookingsUrl = true <;> simp [h]

theorem mkSuccessResult_body (j : Option BlandWebhookInput) (e : Env)
    (t : SlackTransport) (bd : BookingDetails) :
    (mkSuccessResult j e t bd).body = "Booking confirmed and email sent." := by
  unfold mkSuccessResult
  by_cases h : present e.slackBookingsUrl = true <;> simp [h]

theorem mkSuccessResult_icsCalled (j : Option BlandWebhookInput) (e : Env)
    (t : SlackTransport) (bd : BookingDetails) :
    (mkSuccessResult j e t bd).icsCalled = true := by
  unfold mkSuccessResult
  by_cases h : present e.slackBookingsUrl = true <;> simp [h]

theorem mkSuccessResult_emailCalled (j : Option BlandWebhookInput) (e : Env)
    (t : SlackTransport) (bd : BookingDetails) :
    (mkSuccessResult j e t bd).emailCalled = true := by
  unfold mkSuccessResult
  by_cases h : present e.slackBookingsUrl = true <;> simp [h]

theorem mkSuccessResult_failureNotifyAttempts (j : Option BlandWebhookInput) (e : Env)
    (t : SlackTransport) (bd : BookingDetails) :
    (mkSuccessResult j e t bd).failureNotifyAttempts = 0 := by
  unfold mkSuccessResult
  by_cases h : present e.slackBookingsUrl = true <;> simp [h]

theorem mkSuccessResult_successNotifyAttempts (j : Option BlandWebhookInput) (e : Env)
    (t : SlackTransport) (bd : BookingDetails) :
    (mkSuccessResult j e t bd).successNotifyAttempts =
      if present e.slackBookingsUrl then 1 else 0 := by
  unfold mkSuccessResult
  by_cases h : present e.slackBookingsUrl = true <;> simp [h]

theorem mkSuccessResult_bookingDetails (j : Option BlandWebhookInput) (e : Env)
    (t : SlackTransport) (bd : BookingDetails) :
    (mkSuccessResult j e t bd).bookingDetails = some bd := by
  unfold mkSuccessResult
  by_cases h : present e.slackBookingsUrl = true <;> simp [h]

theorem mkSuccessResult_slackData (j : Option BlandWebhookInput) (e : Env)
    (t : SlackTransport) (bd : BookingDetails) :
    (mkSuccessResult j e t bd).slackData = bookingDataForSlack j := by
  unfold mkSuccessResult
  by_cases h : present e.slackBookingsUrl = true <;> simp [h]

theorem prefixed_ne_empty (p s : String) (h : p.length ≠ 0) : p ++ s ≠ "" := by
  intro hx
  have hl := congrArg String.length hx
  rw [String.length_append] at hl
  simp only [String.length_empty] at hl
  omega

theorem derivedName_ne_empty (e : String) : derivedName e ≠ "" := by
  unfold derivedName
  by_cases h : (jsSplitHead e == "") = true <;> simp [h]
  simpa using h

/-- C4: for every `BookingDetails`, the invite request computes the
event end as the start instant plus exactly 30 minutes in
absolute-instant space, projects both endpoints into
America/Los_Angeles local date and time component strings, and the
submitted body carries exactly the listed fields — the local components
plus the explicit zone name — with no `start_date_time` or
`end_date_time` raw-timestamp fields. -/
theorem c4_invite_local_components (details : BookingDetails) :
    (apyRequestBody details).map Prod.fst =
      ["summary", "description", "organizer_email", "attendees_emails",
       "time_zone", "meeting_date", "start_time", "end_time", "organizer_name"] ∧
    List.lookup "time_zone" (apyRequestBody details) = some (.s "America/Los_Angeles") ∧
    List.lookup "meeting_date" (apyRequestBody details)
        = some (.s (formatInTimeZone details.startMs "dd-MM-yyyy")) ∧
    List.lookup "start_time" (apyRequestBody details)
        = some (.s (formatInTimeZone details.startMs "HH:mm")) ∧
    List.lookup "end_time" (apyRequestBody details)
        = some (.s (formatInTimeZone (details.startMs + 30 * 60 * 1000) "HH:mm")) ∧
    "start_date_time" ∉ (apyRequestBody details).map Prod.fst ∧
    "end_date_time" ∉ (apyRequestBody details).map Prod.fst := by
  refine ⟨rfl, rfl, rfl, rfl, rfl, ?_, ?_⟩ <;> simp [apyRequestBody]

/-- C6: for every notification payload, an unconfigured destination
(absent or empty URL, both falsy in the source) means the dispatch is
skipped and reported `false` without raising an error, and for a
configured destination a non-success webhook response or a transport
exception is reported `false`; `sendSlackMessage` is a total function
into `SlackSendResult`, so no error reaches the caller. -/
theorem c6_notification_best_effort :
    (∀ payload t, (sendSlackMessage "" payload t).posted = false ∧
      (sendSlackMessage "" payload t).delivered = false) ∧
    (∀ url payload st b, responseOk st = false →
      (sendSlackMessage url payload (.resp st b)).delivered = false) ∧
    (∀ url payload m, (sendSlackMessage url payload (.exn m)).delivered = false) := by
  refine ⟨fun payload t => ⟨rfl, rfl⟩, fun url payload st b h => ?_, fun url payload m => ?_⟩
  · unfold sendSlackMessage
    by_cases hu : (url == "") = true <;> simp [hu, h]
  · unfold sendSlackMessage
    by_cases hu : (url == "") = true <;> simp [hu]

theorem c6_notification_best_effort_witness :
    ((sendSlackMessage "" { blocks := [] } (.resp 200 "ok")).posted = false ∧
      (sendSlackMessage "" { blocks := [] } (.resp 200 "ok")).delivered = false) ∧
    (responseOk 500 = false ∧
      (sendSlackMessage "https://hooks.example/a" { blocks := [] } (.resp 500 "no")).delivered = false) ∧
    (sendSlackMessage "https://hooks.example/a" { blocks := [] } (.exn "boom")).delivered = false :=
  ⟨c6_notification_best_effort.1 { blocks := [] } (.resp 200 "ok"),
    ⟨rfl, c6_notification_best_effort.2.1 "https://hooks.example/a" { blocks := [] } 500 "no" rfl⟩,
    c6_notification_best_effort.2.2 "https://hooks.example/a" { blocks := [] } "boom"⟩

/-- C7 counterexample: the claim says delivery is reported `true` iff
the body is the literal string `"ok"`, but the source compares
`responseText.trim().toLowerCase()`, so the body `"OK"` — which is not
the literal `"ok"` — is also reported as delivered. -/
theorem c7_counterexample :
    (sendSlackMessage "https://hooks.example/a" { blocks := [] } (.resp 200 "OK")).delivered = true ∧
    "OK" ≠ "ok" := by
  exact ⟨rfl, by decide⟩

/-- C7 amended: for a configured destination, `sendSlackMessage`
reports `true` iff the POST returns an HTTP success status and the
response body, after trimming whitespace and lowercasing, equals
`"ok"`. -/
theorem c7_delivered_iff (url : String) (payload : SlackMessagePayload)
    (st : Nat) (b : String) (h : url ≠ "") :
    (sendSlackMessage url payload (.resp st b)).delivered = true ↔
      (responseOk st = true ∧ jsToLower (jsTrim b) = "ok") := by
  unfold sendSlackMessage
  rw [if_neg (by simpa using h)]
  by_cases hr : responseOk st = true <;> simp [hr]

theorem c7_delivered_iff_witness :
    ("https://hooks.example/a" : String) ≠ "" ∧
    ((sendSlackMessage "https://hooks.example/a" { blocks := [] } (.resp 200 " OK")).delivered = true ↔
      (responseOk 200 = true ∧ jsToLower (jsTrim " OK") = "ok")) :=
  ⟨by decide, c7_delivered_iff "https://hooks.example/a" { blocks := [] } 200 " OK" (by decide)⟩

/-- C2 counterexample: a validation failure (missing `email`) is
answered with status 500, not a 400-class status — the catch block of
the handler returns 500 for every error. -/
theorem c2_counterexample :
    (handleBookEmail
      (some { email := none, interview_date := some "21-05-2025",
              interview_time := some "14:30" })
      { apyToken := "t", sendgridKey := "k", slackBookingsUrl := none,
        slackErrorsUrl := some "https://hooks.example/e" }
      (.ok "ICS") true (.resp 200 "ok")).status = 500 ∧
    ¬(400 ≤ (handleBookEmail
      (some { email := none, interview_date := some "21-05-2025",
              interview_time := some "14:30" })
      { apyToken := "t", sendgridKey := "k", slackBookingsUrl := none,
        slackErrorsUrl := some "https://hooks.example/e" }
      (.ok "ICS") true (.resp 200 "ok")).status ∧
      (handleBookEmail
      (some { email := none, interview_date := some "21-05-2025",
              interview_time := some "14:30" })
      { apyToken := "t", sendgridKey := "k", slackBookingsUrl := none,
        slackErrorsUrl := some "https://hooks.example/e" }
      (.ok "ICS") true (.resp 200 "ok")).status < 500) := by
  exact ⟨rfl, by decide⟩

/-- C2 amended: the handler returns `200 {success: true, message}`
exactly when every stage completes; on any failure — validation,
time-resolution or downstream alike — it returns
`500 {success: false, error}`. -/
theorem c2_status_iff_stages (json : Option BlandWebhookInput) (env : Env)
    (apy : ApyOutcome) (emailOk : Bool) (tr : SlackTransport) :
    (((handleBookEmail json env apy emailOk tr).status = 200 ∧
      (handleBookEmail json env apy emailOk tr).success = true ∧
      (handleBookEmail json env apy emailOk tr).body
          = "Booking confirmed and email sent.") ↔
      stagesComplete json apy emailOk = true) ∧
    (((handleBookEmail json env apy emailOk tr).status = 500 ∧
      (handleBookEmail json env apy emailOk tr).success = false) ↔
      stagesComplete json apy emailOk = false) := by
  cases json with
  | none =>
      simp [handleBookEmail, stagesComplete, mkFailureResult_status,
        mkFailureResult_success]
  | some i =>
      by_cases hp : (present i.email && present i.interview_date &&
          present i.interview_time) = true
      · cases hd : matchDate (i.interview_date.getD "") with
        | none =>
            simp [handleBookEmail, stagesComplete, hp, hd,
              mkFailureResult_status, mkFailureResult_success]
        | some v =>
          obtain ⟨dd, mo, yr⟩ := v
          cases ht : matchTime (i.interview_time.getD "") with
          | none =>
              simp [handleBookEmail, stagesComplete, hp, hd, ht,
                mkFailureResult_status, mkFailureResult_success]
          | some w =>
            obtain ⟨hh, mi⟩ := w
            cases hz : toDateInZone yr mo dd hh mi with
            | none =>
                simp [handleBookEmail, stagesComplete, hp, hd, ht, hz,
                  mkFailureResult_status, mkFailureResult_success]
            | some utc =>
              cases apy with
              | ok ics =>
                cases emailOk with
                | true =>
                    simp [handleBookEmail, stagesComplete, hp, hd, ht, hz,
                      generateICSResult, sendEmailResult, mkSuccessResult_status,
                      mkSuccessResult_success, mkSuccessResult_body]
                | false =>
                    simp [handleBookEmail, stagesComplete, hp, hd, ht, hz,
                      generateICSResult, sendEmailResult,
                      mkFailureResult_status, mkFailureResult_success]
              | httpError st b =>
                  simp [handleBookEmail, stagesComplete, hp, hd, ht, hz,
                    generateICSResult, mkFailureResult_status, mkFailureResult_success]
              | netError m =>
                  simp [handleBookEmail, stagesComplete, hp, hd, ht, hz,
                    generateICSResult, mkFailureResult_status, mkFailureResult_success]
      · have hp2 : (present i.email && present i.interview_date &&
            present i.interview_time) = false := by
          revert hp
          cases (present i.email && present i.interview_date &&
            present i.interview_time) <;> simp
        simp [handleBookEmail, stagesComplete, hp2,
          mkFailureResult_status, mkFailureResult_success]

/-- C3 counterexample: with the errors webhook configured, a
missing-field request does trigger an outbound notification attempt
(the failure notification), contradicting the claim that no outbound
calls at all occur. -/
theorem c3_counterexample :
    (handleBookEmail
      (some { email := none, interview_date := some "21-05-2025",
              interview_time := some "14:30" })
      { apyToken := "t", sendgridKey := "k",
        slackBookingsUrl := some "https://hooks.example/b",
        slackErrorsUrl := some "https://hooks.example/e" }
      (.ok "ICS") true (.resp 200 "ok")).failureNotifyAttempts = 1 ∧
    (handleBookEmail
      (some { email := none, interview_date := some "21-05-2025",
              interview_time := some "14:30" })
      { apyToken := "t", sendgridKey := "k",
        slackBookingsUrl := some "https://hooks.example/b",
        slackErrorsUrl := some "https://hooks.example/e" }
      (.ok "ICS") true (.resp 200 "ok")).icsCalled = false ∧
    (handleBookEmail
      (some { email := none, interview_date := some "21-05-2025",
              interview_time := some "14:30" })
      { apyToken := "t", sendgridKey := "k",
        slackBookingsUrl := some "https://hooks.example/b",
        slackErrorsUrl := some "https://hooks.example/e" }
      (.ok "ICS") true (.resp 200 "ok")).emailCalled = false := by
  decide

/-- C3 amended: a request with missing required fields fails with an
error naming exactly the missing fields; no invite-generation or
email-dispatch call occurs and no success notification is attempted,
but one failure-notification attempt is made when (and only when) the
errors webhook is configured. -/
theorem c3_missing_fields (i : BlandWebhookInput) (env : Env) (apy : ApyOutcome)
    (emailOk : Bool) (tr : SlackTransport) (h : missingFields i ≠ []) :
    (handleBookEmail (some i) env apy emailOk tr).body
        = "Missing required fields: " ++ String.intercalate ", " (missingFields i) ∧
    (handleBookEmail (some i) env apy emailOk tr).icsCalled = false ∧
    (handleBookEmail (some i) env apy emailOk tr).emailCalled = false ∧
    (handleBookEmail (some i) env apy emailOk tr).successNotifyAttempts = 0 ∧
    (handleBookEmail (some i) env apy emailOk tr).failureNotifyAttempts
        = (if present env.slackErrorsUrl then 1 else 0) ∧
    (∀ f, f ∈ missingFields i ↔
      (f ∈ (["email", "interview_date", "interview_time"] : List String) ∧
        present (fieldOf i f) = false)) := by
  have hp : (present i.email && present i.interview_date &&
      present i.interview_time) = false := by
    cases h1 : present i.email <;> cases h2 : present i.interview_date <;>
      cases h3 : present i.interview_time <;>
      simp [missingFields, fieldOf, h1, h2, h3] at h ⊢
  have hne := prefixed_ne_empty "Missing required fields: "
    (String.intercalate ", " (missingFields i)) (by decide)
  refine ⟨?_, ?_, ?_, ?_, ?_, fun f => ?_⟩
  · simp [handleBookEmail, hp, mkFailureResult_body, hne]
  · simp [handleBookEmail, hp, mkFailureResult_icsCalled]
  · simp [handleBookEmail, hp, mkFailureResult_emailCalled]
  · simp [handleBookEmail, hp, mkFailureResult_successNotifyAttempts]
  · simp [handleBookEmail, hp, mkFailureResult_failureNotifyAttempts]
  · simp [missingFields, List.mem_filter]

theorem c3_missing_fields_witness :
    missingFields inputMissingEmail ≠ [] ∧
    (handleBookEmail (some inputMissingEmail) envErrorsOnly
        (.ok "ICS") true (.resp 200 "ok")).body
      = "Missing required fields: " ++
          String.intercalate ", " (missingFields inputMissingEmail) ∧
    (handleBookEmail (some inputMissingEmail) envErrorsOnly
        (.ok "ICS") true (.resp 200 "ok")).failureNotifyAttempts
      = (if present envErrorsOnly.slackErrorsUrl then 1 else 0) :=
  ⟨by decide,
    (c3_missing_fields inputMissingEmail envErrorsOnly
      (.ok "ICS") true (.resp 200 "ok") (by decide)).1,
    (c3_missing_fields inputMissingEmail envErrorsOnly
      (.ok "ICS") true (.resp 200 "ok") (by decide)).2.2.2.2.1⟩

/-- C5 counterexample: when invite generation fails but the errors
webhook is not configured, no `BookingFailed` notification attempt is
made, contradicting the unconditional "exactly one". -/
theorem c5_counterexample :
    (handleBookEmail (some inputGood) envNone
        (.httpError 500 "oops") true (.resp 200 "ok")).failureNotifyAttempts = 0 ∧
    (handleBookEmail (some inputGood) envNone
        (.httpError 500 "oops") true (.resp 200 "ok")).emailCalled = false ∧
    (handleBookEmail (some inputGood) envNone
        (.httpError 500 "oops") true (.resp 200 "ok")).status = 500 := by
  decide

/-- C5 amended: when invite generation fails with a non-success
downstream status on a request that passed validation and time
resolution, email dispatch is never invoked, the response is
`{success: false}` with status 500, no success notification is
attempted, and exactly one `BookingFailed` notification attempt is made
when the errors webhook is configured (none otherwise). -/
theorem c5_invite_failure (i : BlandWebhookInput) (env : Env) (st : Nat) (b : String)
    (emailOk : Bool) (tr : SlackTransport) (dd mo yr hh mi : Nat) (utc : Int)
    (hp : (present i.email && present i.interview_date &&
      present i.interview_time) = true)
    (hd : matchDate (i.interview_date.getD "") = some (dd, mo, yr))
    (ht : matchTime (i.interview_time.getD "") = some (hh, mi))
    (hz : toDateInZone yr mo dd hh mi = some utc) :
    (handleBookEmail (some i) env (.httpError st b) emailOk tr).icsCalled = true ∧
    (handleBookEmail (some i) env (.httpError st b) emailOk tr).emailCalled = false ∧
    (handleBookEmail (some i) env (.httpError st b) emailOk tr).status = 500 ∧
    (handleBookEmail (some i) env (.httpError st b) emailOk tr).success = false ∧
    (handleBookEmail (some i) env (.httpError st b) emailOk tr).successNotifyAttempts = 0 ∧
    (handleBookEmail (some i) env (.httpError st b) emailOk tr).failureNotifyAttempts
        = (if present env.slackErrorsUrl then 1 else 0) := by
  simp [handleBookEmail, hp, hd, ht, hz, generateICSResult,
    mkFailureResult_icsCalled, mkFailureResult_emailCalled, mkFailureResult_status,
    mkFailureResult_success, mkFailureResult_successNotifyAttempts,
    mkFailureResult_failureNotifyAttempts]

theorem c5_invite_failure_witness :
    (handleBookEmail (some inputGood) envErrorsOnly
        (.httpError 500 "oops") true (.resp 200 "ok")).icsCalled = true ∧
    (handleBookEmail (some inputGood) envErrorsOnly
        (.httpError 500 "oops") true (.resp 200 "ok")).emailCalled = false ∧
    (handleBookEmail (some inputGood) envErrorsOnly
        (.httpError 500 "oops") true (.resp 200 "ok")).failureNotifyAttempts = 1 := by
  have := c5_invite_failure inputGood envErrorsOnly
    500 "oops" true (.resp 200 "ok") 21 5 2025 14 30 1747863000000
    (by decide) (by decide) (by decide) (by decide)
  exact ⟨this.1, this.2.1, by rw [this.2.2.2.2.2]; rfl⟩

/-- C8: the response returned to the caller does not depend on the
outcome of the detached notification dispatch: two runs of the same
request differing only in the Slack transport outcome return the same
status, success flag and body (the notification outcome is consumed
only by the detached logging continuation, modelled by
`notifyDelivered`). -/
theorem c8_response_independent_of_notification (json : Option BlandWebhookInput)
    (env : Env) (apy : ApyOutcome) (emailOk : Bool) (tr1 tr2 : SlackTransport) :
    (handleBookEmail json env apy emailOk tr1).status
        = (handleBookEmail json env apy emailOk tr2).status ∧
    (handleBookEmail json env apy emailOk tr1).success
        = (handleBookEmail json env apy emailOk tr2).success ∧
    (handleBookEmail json env apy emailOk tr1).body
        = (handleBookEmail json env apy emailOk tr2).body := by
  cases json with
  | none =>
      simp [handleBookEmail, mkFailureResult_status, mkFailureResult_success,
        mkFailureResult_body]
  | some i =>
      by_cases hp : (present i.email && present i.interview_date &&
          present i.interview_time) = true
      · cases hd : matchDate (i.interview_date.getD "") with
        | none =>
            simp [handleBookEmail, hp, hd, mkFailureResult_status,
              mkFailureResult_success, mkFailureResult_body]
        | some v =>
          obtain ⟨dd, mo, yr⟩ := v
          cases ht : matchTime (i.interview_time.getD "") with
          | none =>
              simp [handleBookEmail, hp, hd, ht, mkFailureResult_status,
                mkFailureResult_success, mkFailureResult_body]
          | some w =>
            obtain ⟨hh, mi⟩ := w
            cases hz : toDateInZone yr mo dd hh mi with
            | none =>
                simp [handleBookEmail, hp, hd, ht, hz, mkFailureResult_status,
                  mkFailureResult_success, mkFailureResult_body]
            | some utc =>
              cases apy with
              | ok ics =>
                cases emailOk with
                | true =>
                    simp [handleBookEmail, hp, hd, ht, hz, generateICSResult,
                      sendEmailResult, mkSuccessResult_status,
                      mkSuccessResult_success, mkSuccessResult_body]
                | false =>
                    simp [handleBookEmail, hp, hd, ht, hz, generateICSResult,
                      sendEmailResult, mkFailureResult_status,
                      mkFailureResult_success, mkFailureResult_body]
              | httpError st b =>
                  simp [handleBookEmail, hp, hd, ht, hz, generateICSResult,
                    mkFailureResult_status, mkFailureResult_success,
                    mkFailureResult_body]
              | netError m =>
                  simp [handleBookEmail, hp, hd, ht, hz, generateICSResult,
                    mkFailureResult_status, mkFailureResult_success,
                    mkFailureResult_body]
      · have hp2 : (present i.email && present i.interview_date &&
            present i.interview_time) = false := by
          revert hp
          cases (present i.email && present i.interview_date &&
            present i.interview_time) <;> simp
        simp [handleBookEmail, hp2, mkFailureResult_status,
          mkFailureResult_success, mkFailureResult_body]

/-- C9 counterexample: times and dates that match the digit patterns
but do not denote real wall-clock values — `25:00` and `32-01-2025` —
do NOT proceed to the invite stage: the library parse yields an invalid
date, the `isNaN` guard fires, and the handler raises the
time-resolution error `Could not parse Pacific date.`. -/
theorem c9_counterexample :
    (handleBookEmail (some inputBadTime) envNone (.ok "ICS") true (.resp 200 "ok")).body
        = "Could not parse Pacific date." ∧
    (handleBookEmail (some inputBadTime) envNone (.ok "ICS") true (.resp 200 "ok")).status = 500 ∧
    (handleBookEmail (some inputBadTime) envNone (.ok "ICS") true (.resp 200 "ok")).icsCalled = false ∧
    (handleBookEmail (some inputBadDate) envNone (.ok "ICS") true (.resp 200 "ok")).body
        = "Could not parse Pacific date." ∧
    (handleBookEmail (some inputBadDate) envNone (.ok "ICS") true (.resp 200 "ok")).icsCalled = false := by
  decide

/-- C9 amended: the only pattern-valid input that does not denote an
ordinary wall-clock time yet passes the instant-resolution guard is
hour 24 with minute 00: the library accepts `24:00` and rolls it over
to midnight of the next day, and the request proceeds through the
invite-generation and email stages; all other non-real dates and times
(`25:00`, `32-01-2025`) are rejected with a time-resolution error. -/
theorem c9_hour24_rollover :
    toDateInZone 2024 12 31 24 0 = some (zonedTimeToUtc (encodeLocal 2025 1 1 0 0)) ∧
    (handleBookEmail (some inputRollover) envNone (.ok "ICS") true (.resp 200 "ok")).status = 200 ∧
    (handleBookEmail (some inputRollover) envNone (.ok "ICS") true (.resp 200 "ok")).icsCalled = true ∧
    (handleBookEmail (some inputRollover) envNone (.ok "ICS") true (.resp 200 "ok")).emailCalled = true ∧
    (handleBookEmail (some inputRollover) envNone (.ok "ICS") true (.resp 200 "ok")).bookingDetails
        = some { name := "a.b", email := "a.b@x.com", startMs := 1735718400000 } := by
  decide

/-- C10: whenever the handler derives `BookingDetails`, the stored name
is non-empty: it is the part of the email before the first `@`, with
`Valued Candidate` substituted when that part is empty, while the
separately-built failure-notification data substitutes the different
fallback `Candidate` in the same situation. -/
theorem c10_derived_name (i : BlandWebhookInput) (env : Env) (apy : ApyOutcome)
    (emailOk : Bool) (tr : SlackTransport) (bd : BookingDetails)
    (h : (handleBookEmail (some i) env apy emailOk tr).bookingDetails = some bd) :
    bd.name ≠ "" ∧
    bd.name = (if jsSplitHead bd.email == "" then "Valued Candidate"
      else jsSplitHead bd.email) ∧
    (handleBookEmail (some i) env apy emailOk tr).slackData.name
        = some (if jsSplitHead bd.email == "" then "Candidate"
            else jsSplitHead bd.email) := by
  by_cases hp : (present i.email && present i.interview_date &&
      present i.interview_time) = true
  case neg =>
    have hp2 : (present i.email && present i.interview_date &&
        present i.interview_time) = false := by
      revert hp
      cases (present i.email && present i.interview_date &&
        present i.interview_time) <;> simp
    simp [handleBookEmail, hp2, mkFailureResult_bookingDetails] at h
  case pos =>
    cases hd : matchDate (i.interview_date.getD "") with
    | none => simp [handleBookEmail, hp, hd, mkFailureResult_bookingDetails] at h
    | some v =>
      obtain ⟨dd, mo, yr⟩ := v
      cases ht : matchTime (i.interview_time.getD "") with
      | none => simp [handleBookEmail, hp, hd, ht, mkFailureResult_bookingDetails] at h
      | some w =>
        obtain ⟨hh, mi⟩ := w
        cases hz : toDateInZone yr mo dd hh mi with
        | none => simp [handleBookEmail, hp, hd, ht, hz, mkFailureResult_bookingDetails] at h
        | some utc =>
          have hps := hp
          simp only [Bool.and_eq_true] at hps
          obtain ⟨⟨hpe, hpd⟩, hpt⟩ := hps
          have hbd : bd = { name := derivedName (i.email.getD ""),
                            email := i.email.getD "", startMs := utc } := by
            cases apy with
            | ok ics =>
              cases emailOk with
              | true =>
                  simp [handleBookEmail, hp, hd, ht, hz, generateICSResult,
                    sendEmailResult, mkSuccessResult_bookingDetails] at h
                  exact h.symm
              | false =>
                  simp [handleBookEmail, hp, hd, ht, hz, generateICSResult,
                    sendEmailResult, mkFailureResult_bookingDetails] at h
                  exact h.symm
            | httpError st b =>
                simp [handleBookEmail, hp, hd, ht, hz, generateICSResult,
                  mkFailureResult_bookingDetails] at h
                exact h.symm
            | netError m =>
                simp [handleBookEmail, hp, hd, ht, hz, generateICSResult,
                  mkFailureResult_bookingDetails] at h
                exact h.symm
          subst hbd
          refine ⟨derivedName_ne_empty _, rfl, ?_⟩
          cases apy with
          | ok ics =>
            cases emailOk with
            | true =>
                simp [handleBookEmail, hp, hd, ht, hz, generateICSResult,
                  sendEmailResult, mkSuccessResult_slackData,
                  bookingDataForSlack, hpe, hpd, hpt, derivedName]
            | false =>
                simp [handleBookEmail, hp, hd, ht, hz, generateICSResult,
                  sendEmailResult, mkFailureResult_slackData,
                  bookingDataForSlack, hpe, hpd, hpt, derivedName]
          | httpError st b =>
              simp [handleBookEmail, hp, hd, ht, hz, generateICSResult,
                mkFailureResult_slackData, bookingDataForSlack, hpe, hpd, hpt, derivedName]
          | netError m =>
              simp [handleBookEmail, hp, hd, ht, hz, generateICSResult,
                mkFailureResult_slackData, bookingDataForSlack, hpe, hpd, hpt, derivedName]

theorem c10_derived_name_witness :
    (handleBookEmail (some inputAtEmail) envNone (.ok "ICS") true (.resp 200 "ok")).bookingDetails
        = some { name := "Valued Candidate", email := "@x.com", startMs := 1752606000000 } ∧
    ({ name := "Valued Candidate", email := "@x.com",
        startMs := (1752606000000 : Int) } : BookingDetails).name ≠ "" ∧
    (handleBookEmail (some inputAtEmail) envNone (.ok "ICS") true (.resp 200 "ok")).slackData.name
        = some "Candidate" := by
  have h : (handleBookEmail (some inputAtEmail) envNone (.ok "ICS") true (.resp 200 "ok")).bookingDetails
      = some { name := "Valued Candidate", email := "@x.com", startMs := 1752606000000 } := by
    decide
  have hc := c10_derived_name inputAtEmail envNone (.ok "ICS") true (.resp 200 "ok") _ h
  exact ⟨h, hc.1, by rw [hc.2.2]; rfl⟩

theorem c4_invite_local_components_witness :
    (apyRequestBody
        { name := "a.b", email := "a.b@x.com", startMs := (1747863000000 : Int) }).map Prod.fst =
      ["summary", "description", "organizer_email", "attendees_emails",
       "time_zone", "meeting_date", "start_time", "end_time", "organizer_name"] ∧
    List.lookup "end_time" (apyRequestBody
        { name := "a.b", email := "a.b@x.com", startMs := (1747863000000 : Int) })
      = some (.s (formatInTimeZone ((1747863000000 : Int) + 30 * 60 * 1000) "HH:mm")) ∧
    "start_date_time" ∉ (apyRequestBody
        { name := "a.b", email := "a.b@x.com", startMs := (1747863000000 : Int) }).map Prod.fst :=
  ⟨(c4_invite_local_components
      { name := "a.b", email := "a.b@x.com", startMs := (1747863000000 : Int) }).1,
    (c4_invite_local_components
      { name := "a.b", email := "a.b@x.com", startMs := (1747863000000 : Int) }).2.2.2.2.1,
    (c4_invite_local_components
      { name := "a.b", email := "a.b@x.com", startMs := (1747863000000 : Int) }).2.2.2.2.2.1⟩
